import Mathlib

/-!
Verification development for the channel-based synchronizing test double of
package `grocery` (`note.go`, `note_test.go`, and the accompanying
`GroceryList` code).

The test double (`FakeClient`) exchanges strongly typed call/response
messages with a verification goroutine over a single unbuffered channel
(`Calls chan Call`).  We embed the two goroutines as explicit processes
(`Proc`) communicating through a rendezvous channel, with a deterministic
small-step scheduler (`step`) and a fuel-indexed executor (`run`).
-/

namespace Grocery

/-- Go `error` values are opaque payloads that the double only relays; we
render them as strings, with `Option Err` standing for `error`
(`none` = `nil`). -/
abbrev Err := String

/-- `type Note struct { Text string }` (note.go). -/
structure Note where
  Text : String
deriving DecidableEq

/-- The values carried on the `Calls chan Call` channel (note_test.go).
The Go channel element type is the empty interface, but the only values
ever sent are the four pointer types `*createCall`, `*createResp`,
`*allCall`, `*allResp`, all non-nil, so a closed sum faithfully renders
the reachable channel contents. -/
inductive Msg where
  | createCall (note : Note)
  | createResp (err : Option Err)
  | allCall
  | allResp (notes : List Note) (err : Option Err)
deriving DecidableEq

/-- Return values observed by the driver: `Create` returns `error`,
`All` returns `([]*Note, error)`. -/
inductive DriverRet where
  | createRet (err : Option Err)
  | allRet (notes : List Note) (err : Option Err)
deriving DecidableEq

/-- One driver-side method invocation on the double
(`FakeClient.Create` / `FakeClient.All`). -/
inductive DriverOp where
  | create (n : Note)
  | all
deriving DecidableEq

/-- One verification-side step
(`FakeClient.AssertCreate` / `FakeClient.AssertAll`). -/
inductive VerifierStep where
  | assertCreate (n : Note) (err : Option Err)
  | assertAll (notes : List Note) (err : Option Err)
deriving DecidableEq

/-- A thread of the test, written as the sequence of channel actions it
performs.  `send`/`recv` block on the unbuffered channel; `recv`'s
continuation gets `none` when the channel is closed (Go: a receive on a
closed channel yields the zero value with `more = false`).  `report` is
`t.Error` (non-fatal, execution continues); `fatal` covers `t.Fatal` and
runtime panics such as a failed type assertion (the thread performs no
further action); `done` is the driver finishing with the returns it
accumulated; `stop` is the verifier goroutine finishing. -/
inductive Proc where
  | send (m : Msg) (k : Proc)
  | recv (k : Option Msg → Proc)
  | close (k : Proc)
  | report (s : String) (k : Proc)
  | fatal (s : String)
  | done (rets : List DriverRet)
  | stop

/-- Message of the failed type assertion in `Create`:
`(<-c.Calls).(*createResp)` applied to something else. -/
def wrongRespCreateMsg : String := "interface conversion: Call is not *createResp"

/-- Message of the failed type assertion in `All`. -/
def wrongRespAllMsg : String := "interface conversion: Call is not *allResp"

/-- Message of the failed type assertion in `AssertCreate`. -/
def wrongCallCreateMsg : String := "interface conversion: Call is not *createCall"

/-- Message of the failed type assertion in `AssertAll`. -/
def wrongCallAllMsg : String := "interface conversion: Call is not *allCall"

/-- Panic raised by a send on a closed channel. -/
def sendOnClosedMsg : String := "send on closed channel"

/-- Panic raised by closing an already closed channel. -/
def closeTwiceMsg : String := "close of closed channel"

/-- `t.Fatal` message of `AssertDone` (note_test.go line 58). -/
def extraCallMsg : String := "Did not expect more calls"

/-- `t.Error` message of `AssertCreate` on a value mismatch
(note_test.go line 43): `expected create with n but was call.note`. -/
def mismatchMsg (expected actual : Note) : String :=
  "expected create with " ++ expected.Text ++ " but was " ++ actual.Text

/-- What `Create` does with the received response:
`(<-c.Calls).(*createResp).err`.  Anything that is not a `*createResp`
(including the nil obtained from a closed channel) makes the type
assertion panic. -/
def createK (k : Option Err → Proc) : Option Msg → Proc
  | some (.createResp e) => k e
  | _ => .fatal wrongRespCreateMsg

/-- What `All` does with the received response:
`resp := (<-c.Calls).(*allResp); return resp.notes, resp.err`. -/
def allK (k : List Note → Option Err → Proc) : Option Msg → Proc
  | some (.allResp ns e) => k ns e
  | _ => .fatal wrongRespAllMsg

/-- Body of `AssertCreate(n, err)` after the receive:
`call := (<-c.Calls).(*createCall)` (panics on any other variant or on a
closed channel), then `if *call.note != *n { c.t.Error(...) }` (non-fatal),
then `c.Calls <- &createResp{err}`. -/
def assertCreateK (n : Note) (err : Option Err) (k : Proc) : Option Msg → Proc
  | some (.createCall actual) =>
      if actual = n then .send (.createResp err) k
      else .report (mismatchMsg n actual) (.send (.createResp err) k)
  | _ => .fatal wrongCallCreateMsg

/-- Body of `AssertAll(notes, err)` after the receive:
`call := (<-c.Calls).(*allCall)` (panics on any other variant or on a
closed channel), then `if call == nil { c.t.Error("No all call") }` —
unreachable here, since every `*allCall` actually sent is non-nil — then
`c.Calls <- &allResp{notes, err}`. -/
def assertAllK (notes : List Note) (err : Option Err) (k : Proc) : Option Msg → Proc
  | some .allCall => .send (.allResp notes err) k
  | _ => .fatal wrongCallAllMsg

/-- Body of `AssertDone(t)`: `if _, more := <-c.Calls; more { t.Fatal(...) }`.
Receiving an actual value (`more = true`) is the fatal
"Did not expect more calls"; receiving the closed-channel signal
(`more = false`) succeeds and the driver thread finishes. -/
def assertDoneK (acc : List DriverRet) : Option Msg → Proc
  | some _ => .fatal extraCallMsg
  | none => .done acc.reverse

/-- The driver goroutine: it performs the listed `FakeClient` method calls
in order (each: send the call message, then receive and type-assert the
response, exactly as `Create`/`All` do), accumulating the returned values,
and finally calls `AssertDone` when `ad` is true. -/
def driverProc (ad : Bool) : List DriverOp → List DriverRet → Proc
  | [], acc => if ad then .recv (assertDoneK acc) else .done acc.reverse
  | .create n :: ops, acc =>
      .send (.createCall n)
        (.recv (createK fun e => driverProc ad ops (.createRet e :: acc)))
  | .all :: ops, acc =>
      .send .allCall
        (.recv (allK fun ns e => driverProc ad ops (.allRet ns e :: acc)))

/-- The verification goroutine: it performs the listed assertion calls in
order and then `Close()` (as in `TestGroceryList`'s goroutine). -/
def verifierProc : List VerifierStep → Proc
  | [] => .close .stop
  | .assertCreate n err :: rest => .recv (assertCreateK n err (verifierProc rest))
  | .assertAll notes err :: rest => .recv (assertAllK notes err (verifierProc rest))

/-- The call message each `FakeClient` method sends first. -/
def DriverOp.callMsg : DriverOp → Msg
  | .create n => .createCall n
  | .all => .allCall

/-- The response message an assertion step sends back. -/
def VerifierStep.respMsg : VerifierStep → Msg
  | .assertCreate _ e => .createResp e
  | .assertAll ns e => .allResp ns e

/-- The driver-visible return value an assertion step supplies. -/
def VerifierStep.suppliedRet : VerifierStep → DriverRet
  | .assertCreate _ e => .createRet e
  | .assertAll ns e => .allRet ns e

/-- Whether a driver operation and a verification step are of the same
variant (Create with AssertCreate, All with AssertAll). -/
def variantMatches : DriverOp → VerifierStep → Bool
  | .create _, .assertCreate _ _ => true
  | .all, .assertAll _ _ => true
  | _, _ => false

/-- Whether a response message is of the variant matching a call message. -/
def respMatchesCall : Msg → Msg → Bool
  | .createCall _, .createResp _ => true
  | .allCall, .allResp _ _ => true
  | _, _ => false

/-- The `t.Error` reports produced by one matched round-trip: only
`AssertCreate` with a differing note value reports. -/
def roundReports : DriverOp → VerifierStep → List String
  | .create n, .assertCreate n₀ _ => if n = n₀ then [] else [mismatchMsg n₀ n]
  | _, _ => []

/-- Variant-wise matching of a whole session, round by round. -/
def sessionMatch : List DriverOp → List VerifierStep → Bool
  | [], [] => true
  | op :: ops, st :: sts => variantMatches op st && sessionMatch ops sts
  | _, _ => false

/-- The values returned to the driver over a session: exactly the values
supplied by the assertions, in order. -/
def sessionRets (sts : List VerifierStep) : List DriverRet :=
  sts.map VerifierStep.suppliedRet

/-- All `t.Error` reports of a session, in order. -/
def sessionReports : List DriverOp → List VerifierStep → List String
  | op :: ops, st :: sts => roundReports op st ++ sessionReports ops sts
  | _, _ => []

/-- The rendezvous trace of a matched session: each round contributes its
call message immediately followed by its response message. -/
def sessionEvents : List DriverOp → List VerifierStep → List Msg
  | op :: ops, st :: sts => op.callMsg :: st.respMsg :: sessionEvents ops sts
  | _, _ => []

/-- `GroceryList.AddItem(item)` delegates to
`g.API.Create(&Note{Text: item})`. -/
def GroceryList.AddItem (item : String) : DriverOp := .create ⟨item⟩

/-- `GroceryList.Items()` post-processing of the `g.API.All()` result:
on a non-nil error it returns the empty slice literal and that error;
otherwise it maps every note to its `Text` field. -/
def GroceryList.Items (notes : List Note) (err : Option Err) :
    List String × Option Err :=
  match err with
  | some e => ([], some e)
  | none => (notes.map Note.Text, none)

/-- A configuration of the whole test: the two goroutines, whether the
channel has been closed, the `t.Error` reports emitted so far, and the
trace of messages exchanged over the channel. -/
structure Config where
  driver : Proc
  verifier : Proc
  closed : Bool
  reports : List String
  events : List Msg

/-- One scheduler step.  Local `t.Error` reports and `close` never block;
a send pairs with the other thread's receive (the unbuffered rendezvous,
recorded in `events`); a send on a closed channel panics; a receive on a
closed channel immediately yields `none`.  `none` means no thread can
move (termination or deadlock). -/
def step (c : Config) : Option Config :=
  match c.driver, c.verifier with
  | .report s k, _ => some { c with driver := k, reports := c.reports ++ [s] }
  | _, .report s k => some { c with verifier := k, reports := c.reports ++ [s] }
  | .close k, _ =>
      if c.closed then some { c with driver := .fatal closeTwiceMsg }
      else some { c with driver := k, closed := true }
  | _, .close k =>
      if c.closed then some { c with verifier := .fatal closeTwiceMsg }
      else some { c with verifier := k, closed := true }
  | .send m kd, .recv kv =>
      if c.closed then some { c with driver := .fatal sendOnClosedMsg }
      else some { c with driver := kd, verifier := kv (some m), events := c.events ++ [m] }
  | .recv kd, .send m kv =>
      if c.closed then some { c with verifier := .fatal sendOnClosedMsg }
      else some { c with driver := kd (some m), verifier := kv, events := c.events ++ [m] }
  | .send _ _, _ =>
      if c.closed then some { c with driver := .fatal sendOnClosedMsg } else none
  | _, .send _ _ =>
      if c.closed then some { c with verifier := .fatal sendOnClosedMsg } else none
  | .recv kd, _ =>
      if c.closed then some { c with driver := kd none } else none
  | _, .recv kv =>
      if c.closed then some { c with verifier := kv none } else none
  | _, _ => none

/-- Run the scheduler for at most `n` steps (it is stationary once `step`
returns `none`). -/
def run : Nat → Config → Config
  | 0, c => c
  | n + 1, c =>
    match step c with
    | some c' => run n c'
    | none => c

/-- `b` is reachable from `a` under the scheduler. -/
def Reaches (a b : Config) : Prop := ∃ n, run n a = b

/-- The whole test finished cleanly: the driver completed with its returns
and the verifier goroutine ran to completion. -/
def Config.finishedOK (c : Config) : Prop :=
  (∃ rets, c.driver = .done rets) ∧ c.verifier = .stop

/-- The initial configuration of a test session: driver operations on one
side, assertions followed by `Close()` on the other, open channel. -/
def initConfig (ad : Bool) (ops : List DriverOp) (sts : List VerifierStep) :
    Config :=
  ⟨driverProc ad ops [], verifierProc sts, false, [], []⟩

theorem run_of_none {c : Config} (h : step c = none) : ∀ n, run n c = c := by
  intro n
  cases n with
  | zero => rfl
  | succ n => simp [run, h]

theorem run_add (m n : Nat) (c : Config) :
    run (m + n) c = run n (run m c) := by
  induction m generalizing c with
  | zero => simp [run]
  | succ m ih =>
    have hsa : m + 1 + n = (m + n) + 1 := by omega
    rw [hsa]
    show (match step c with
      | some c' => run (m + n) c'
      | none => c) = run n (match step c with
      | some c' => run m c'
      | none => c)
    cases hs : step c with
    | some c' => simpa using ih c'
    | none => simp [run_of_none hs]

theorem Reaches.refl (a : Config) : Reaches a a := ⟨0, rfl⟩

theorem Reaches.trans {a b c : Config} (h₁ : Reaches a b) (h₂ : Reaches b c) :
    Reaches a c := by
  obtain ⟨m, hm⟩ := h₁
  obtain ⟨n, hn⟩ := h₂
  exact ⟨m + n, by rw [run_add, hm, hn]⟩

theorem reaches_of_step {a b : Config} (h : step a = some b) : Reaches a b :=
  ⟨1, by simp [run, h]⟩

theorem round_create (ad : Bool) (n n₀ : Note) (err : Option Err)
    (ops : List DriverOp) (sts : List VerifierStep) (acc : List DriverRet)
    (rs : List String) (es : List Msg) :
    Reaches
      ⟨driverProc ad (.create n :: ops) acc, verifierProc (.assertCreate n₀ err :: sts), false, rs, es⟩
      ⟨driverProc ad ops (.createRet err :: acc), verifierProc sts, false,
        rs ++ (if n = n₀ then [] else [mismatchMsg n₀ n]), es ++ [.createCall n, .createResp err]⟩ := by
  by_cases h : n = n₀
  · exact ⟨2, by simp [run, step, driverProc, verifierProc, createK, assertCreateK, h]⟩
  · exact ⟨3, by simp [run, step, driverProc, verifierProc, createK, assertCreateK, h]⟩

theorem round_all (ad : Bool) (notes : List Note) (err : Option Err)
    (ops : List DriverOp) (sts : List VerifierStep) (acc : List DriverRet)
    (rs : List String) (es : List Msg) :
    Reaches
      ⟨driverProc ad (.all :: ops) acc, verifierProc (.assertAll notes err :: sts), false, rs, es⟩
      ⟨driverProc ad ops (.allRet notes err :: acc), verifierProc sts, false,
        rs, es ++ [.allCall, .allResp notes err]⟩ :=
  ⟨2, by simp [run, step, driverProc, verifierProc, allK, assertAllK]⟩

theorem round_general (ad : Bool) (op : DriverOp) (st : VerifierStep)
    (ops : List DriverOp) (sts : List VerifierStep) (acc : List DriverRet)
    (rs : List String) (es : List Msg) (hv : variantMatches op st = true) :
    Reaches
      ⟨driverProc ad (op :: ops) acc, verifierProc (st :: sts), false, rs, es⟩
      ⟨driverProc ad ops (st.suppliedRet :: acc), verifierProc sts, false,
        rs ++ roundReports op st, es ++ [op.callMsg, st.respMsg]⟩ := by
  cases op with
  | create n =>
    cases st with
    | assertCreate n₀ e =>
      simpa [VerifierStep.suppliedRet, roundReports, DriverOp.callMsg, VerifierStep.respMsg]
        using round_create ad n n₀ e ops sts acc rs es
    | assertAll notes e => simp [variantMatches] at hv
  | all =>
    cases st with
    | assertCreate n₀ e => simp [variantMatches] at hv
    | assertAll notes e =>
      simpa [VerifierStep.suppliedRet, roundReports, DriverOp.callMsg, VerifierStep.respMsg]
        using round_all ad notes e ops sts acc rs es

theorem session_reaches (ad : Bool) :
    ∀ (ops : List DriverOp) (sts : List VerifierStep) (acc : List DriverRet)
      (rs : List String) (es : List Msg),
    sessionMatch ops sts = true →
    Reaches ⟨driverProc ad ops acc, verifierProc sts, false, rs, es⟩
      ⟨driverProc ad [] ((sessionRets sts).reverse ++ acc), verifierProc [], false,
        rs ++ sessionReports ops sts, es ++ sessionEvents ops sts⟩ := by
  intro ops
  induction ops with
  | nil =>
    intro sts acc rs es h
    cases sts with
    | nil => simpa [sessionRets, sessionReports, sessionEvents] using Reaches.refl _
    | cons st sts => simp [sessionMatch] at h
  | cons op ops ih =>
    intro sts acc rs es h
    cases sts with
    | nil => simp [sessionMatch] at h
    | cons st sts =>
      simp only [sessionMatch, Bool.and_eq_true] at h
      refine Reaches.trans (round_general ad op st ops sts acc rs es h.1) ?_
      have h2 := ih sts (st.suppliedRet :: acc) (rs ++ roundReports op st)
        (es ++ [op.callMsg, st.respMsg]) h.2
      simpa [sessionRets, sessionReports, sessionEvents, List.reverse_cons,
        List.append_assoc] using h2

theorem close_then_assertDone (acc : List DriverRet) (rs : List String) (es : List Msg) :
    Reaches ⟨driverProc true [] acc, verifierProc [], false, rs, es⟩
            ⟨.done acc.reverse, .stop, true, rs, es⟩ :=
  ⟨2, by simp [run, step, driverProc, verifierProc, assertDoneK]⟩

theorem close_after_done (acc : List DriverRet) (rs : List String) (es : List Msg) :
    Reaches ⟨driverProc false [] acc, verifierProc [], false, rs, es⟩
            ⟨.done acc.reverse, .stop, true, rs, es⟩ :=
  ⟨1, by simp [run, step, driverProc, verifierProc]⟩

theorem session_full (ad : Bool) (ops : List DriverOp) (sts : List VerifierStep)
    (h : sessionMatch ops sts = true) :
    Reaches (initConfig ad ops sts)
      ⟨.done (sessionRets sts), .stop, true, sessionReports ops sts, sessionEvents ops sts⟩ := by
  have h1 := session_reaches ad ops sts [] [] [] h
  simp only [List.append_nil, List.nil_append] at h1
  refine Reaches.trans h1 ?_
  cases ad
  · have h2 := close_after_done (sessionRets sts).reverse (sessionReports ops sts)
      (sessionEvents ops sts)
    rw [List.reverse_reverse] at h2
    exact h2
  · have h2 := close_then_assertDone (sessionRets sts).reverse (sessionReports ops sts)
      (sessionEvents ops sts)
    rw [List.reverse_reverse] at h2
    exact h2

theorem finishedOK_stuck (c : Config) (h : c.finishedOK) : step c = none := by
  obtain ⟨d, v, cl, rs, es⟩ := c
  obtain ⟨⟨rets, hd⟩, hv⟩ := h
  cases hd
  cases hv
  rfl

theorem not_finishedOK_of_stuck {a c : Config} (h : Reaches a c) (hs : step c = none)
    (hn : ¬ c.finishedOK) : ∀ n, ¬ (run n a).finishedOK := by
  obtain ⟨k, hk⟩ := h
  intro n hOK
  rcases Nat.le_total k n with hkn | hnk
  · apply hn
    have h1 : run n a = run (n - k) (run k a) := by
      rw [← run_add]
      congr 1
      omega
    rw [h1, hk, run_of_none hs] at hOK
    exact hOK
  · apply hn
    have h1 : run k a = run (k - n) (run n a) := by
      rw [← run_add]
      congr 1
      omega
    rw [h1, run_of_none (finishedOK_stuck _ hOK)] at hk
    exact hk ▸ hOK

theorem session_mismatch :
    ∀ (ops : List DriverOp) (sts : List VerifierStep) (acc : List DriverRet)
      (rs : List String) (es : List Msg),
    sessionMatch ops sts = false →
    ∃ c, Reaches ⟨driverProc true ops acc, verifierProc sts, false, rs, es⟩ c
      ∧ step c = none ∧ ¬ c.finishedOK := by
  intro ops
  induction ops with
  | nil =>
    intro sts acc rs es h
    cases sts with
    | nil => simp [sessionMatch] at h
    | cons st sts =>
      refine ⟨_, Reaches.refl _, ?_, ?_⟩
      · cases st <;> rfl
      · rintro ⟨⟨rets, hd⟩, -⟩
        simp [driverProc] at hd
  | cons op ops ih =>
    intro sts acc rs es h
    cases sts with
    | nil =>
      refine ⟨⟨.fatal sendOnClosedMsg, .stop, true, rs, es⟩, ?_, rfl, ?_⟩
      · exact ⟨2, by cases op <;> simp [run, step, driverProc, verifierProc]⟩
      · rintro ⟨⟨rets, hd⟩, -⟩
        exact Proc.noConfusion hd
    | cons st sts =>
      by_cases hv : variantMatches op st = true
      · have hs : sessionMatch ops sts = false := by
          revert h
          simp [sessionMatch, hv]
        obtain ⟨c, hc, h1, h2⟩ := ih sts (st.suppliedRet :: acc)
          (rs ++ roundReports op st) (es ++ [op.callMsg, st.respMsg]) hs
        exact ⟨c, Reaches.trans (round_general true op st ops sts acc rs es hv) hc, h1, h2⟩
      · cases op with
        | create n =>
          cases st with
          | assertCreate n₀ e => simp [variantMatches] at hv
          | assertAll notes e =>
            refine ⟨⟨.recv (createK fun e' => driverProc true ops (.createRet e' :: acc)),
              .fatal wrongCallAllMsg, false, rs, es ++ [.createCall n]⟩, ?_, rfl, ?_⟩
            · exact ⟨1, by simp [run, step, driverProc, verifierProc, assertAllK]⟩
            · rintro ⟨-, hv2⟩
              exact Proc.noConfusion hv2
        | all =>
          cases st with
          | assertCreate n₀ e =>
            refine ⟨⟨.recv (allK fun ns e' => driverProc true ops (.allRet ns e' :: acc)),
              .fatal wrongCallCreateMsg, false, rs, es ++ [.allCall]⟩, ?_, rfl, ?_⟩
            · exact ⟨1, by simp [run, step, driverProc, verifierProc, assertCreateK]⟩
            · rintro ⟨-, hv2⟩
              exact Proc.noConfusion hv2
          | assertAll notes e => simp [variantMatches] at hv

/-- The note value used throughout `TestGroceryList`. -/
def apples : Note := ⟨"apples"⟩

/-- Driver side of `TestGroceryList`: `list.AddItem("apples")` then
`list.Items()`, i.e. `Create(&Note{"apples"})` then `All()`. -/
def testOps : List DriverOp := [.create apples, .all]

/-- Verifier side of `TestGroceryList`'s goroutine:
`AssertCreate(&Note{"apples"}, nil)` then `AssertAll([]*Note{{"apples"}}, nil)`
(then `Close()`, which `verifierProc` appends). -/
def testSteps : List VerifierStep :=
  [.assertCreate apples none, .assertAll [apples] none]

/-- C1: for every sequence of driver operations paired in order with
verification assertions of matching variants, the session completes and
the driver's accumulated returns are exactly
`sts.map VerifierStep.suppliedRet`: the i-th operation returns precisely
the response values (error for Create; notes and error for All) supplied
by the i-th assertion — the double never synthesizes or alters them. -/
theorem claim1_returns_exactly_supplied (ops : List DriverOp) (sts : List VerifierStep)
    (h : sessionMatch ops sts = true) :
    Reaches (initConfig false ops sts)
      ⟨.done (sessionRets sts), .stop, true, sessionReports ops sts, sessionEvents ops sts⟩
    ∧ sessionRets sts = sts.map VerifierStep.suppliedRet :=
  ⟨session_full false ops sts h, rfl⟩

/-- Witness for C1 at a concrete two-round session whose assertions supply
non-nil errors, which come back verbatim. -/
theorem claim1_witness :
    sessionMatch [DriverOp.create apples, DriverOp.all]
        [VerifierStep.assertCreate apples (some "boom"), VerifierStep.assertAll [] (some "oops")] = true
    ∧ Reaches (initConfig false [DriverOp.create apples, DriverOp.all]
        [VerifierStep.assertCreate apples (some "boom"), VerifierStep.assertAll [] (some "oops")])
        ⟨.done [.createRet (some "boom"), .allRet [] (some "oops")], .stop, true, [],
          [.createCall apples, .createResp (some "boom"), .allCall, .allResp [] (some "oops")]⟩ :=
  ⟨rfl, (claim1_returns_exactly_supplied [DriverOp.create apples, DriverOp.all]
    [VerifierStep.assertCreate apples (some "boom"), VerifierStep.assertAll [] (some "oops")] rfl).1⟩

/-- C2: the end-to-end `TestGroceryList` scenario.  The driver calls
`Create(&Note{"apples"})` then `All()`; the verifier concurrently runs
`AssertCreate(&Note{"apples"}, nil)`, `AssertAll([]*Note{{"apples"}}, nil)`,
`Close()`.  The run terminates with `Create` having returned nil and `All`
having returned `([apples], nil)`, no `t.Error` report, and the trailing
`AssertDone` completing without failure (the driver ends in `done`, not
`fatal`); `Items()`'s mapping of the `All` result yields
`(["apples"], nil)`. -/
theorem claim2_end_to_end :
    run 20 (initConfig true testOps testSteps) =
      ⟨.done [.createRet none, .allRet [apples] none], .stop, true, [],
        [.createCall apples, .createResp none, .allCall, .allResp [apples] none]⟩
    ∧ GroceryList.Items [apples] none = (["apples"], none) :=
  ⟨rfl, rfl⟩

/-- C3: the protocol alternates in lockstep per round-trip.  For any
matching driver operation and verification step, the round appends to the
channel trace exactly one call message (consumed by exactly that
verification step) followed by exactly one response message, and only then
does the driver proceed to its next operation; moreover the response
message is of the variant matching the call message. -/
theorem claim3_lockstep_round_trip (ad : Bool) (op : DriverOp) (st : VerifierStep)
    (ops : List DriverOp) (sts : List VerifierStep) (acc : List DriverRet)
    (rs : List String) (es : List Msg) (h : variantMatches op st = true) :
    Reaches ⟨driverProc ad (op :: ops) acc, verifierProc (st :: sts), false, rs, es⟩
      ⟨driverProc ad ops (st.suppliedRet :: acc), verifierProc sts, false,
        rs ++ roundReports op st, es ++ [op.callMsg, st.respMsg]⟩
    ∧ respMatchesCall op.callMsg st.respMsg = true := by
  refine ⟨round_general ad op st ops sts acc rs es h, ?_⟩
  cases op <;> cases st <;>
    simp_all [variantMatches, respMatchesCall, DriverOp.callMsg, VerifierStep.respMsg]

/-- Witness for C3 at one concrete All/AssertAll round-trip. -/
theorem claim3_witness :
    variantMatches .all (.assertAll [apples] none) = true
    ∧ Reaches
        ⟨driverProc false [DriverOp.all] [], verifierProc [VerifierStep.assertAll [apples] none], false, [], []⟩
        ⟨driverProc false [] [.allRet [apples] none], verifierProc [], false, [],
          [.allCall, .allResp [apples] none]⟩
    ∧ respMatchesCall Msg.allCall (.allResp [apples] none) = true := by
  have h := claim3_lockstep_round_trip false .all (.assertAll [apples] none) [] [] [] [] [] rfl
  exact ⟨rfl, h.1, h.2⟩

/-- C4: `AssertCreate(expected, err)` paired with `Create(actual)` where
the note values differ reports exactly one non-fatal mismatch failure
(one `t.Error` entry is appended) and the round-trip still completes:
both threads continue, and `Create` still returns `err` to the driver. -/
theorem claim4_create_mismatch (ad : Bool) (actual expected : Note) (err : Option Err)
    (ops : List DriverOp) (sts : List VerifierStep) (acc : List DriverRet)
    (rs : List String) (es : List Msg) (h : actual ≠ expected) :
    Reaches
      ⟨driverProc ad (.create actual :: ops) acc,
        verifierProc (.assertCreate expected err :: sts), false, rs, es⟩
      ⟨driverProc ad ops (.createRet err :: acc), verifierProc sts, false,
        rs ++ [mismatchMsg expected actual], es ++ [.createCall actual, .createResp err]⟩ := by
  have h1 := round_create ad actual expected err ops sts acc rs es
  rw [if_neg h] at h1
  exact h1

/-- Witness for C4: `Create(&Note{"pears"})` against
`AssertCreate(&Note{"apples"}, nil)`. -/
theorem claim4_witness :
    (Note.mk "pears" ≠ apples)
    ∧ Reaches
        ⟨driverProc false [.create ⟨"pears"⟩] [], verifierProc [.assertCreate apples none], false, [], []⟩
        ⟨driverProc false [] [.createRet none], verifierProc [], false,
          [mismatchMsg apples ⟨"pears"⟩], [.createCall ⟨"pears"⟩, .createResp none]⟩ :=
  ⟨by decide, claim4_create_mismatch false ⟨"pears"⟩ apples none [] [] [] [] [] (by decide)⟩

/-- C5: `AssertDone` reports a failure iff an unconsumed call remains
pending.  Its one receive is fatal ("Did not expect more calls") exactly
when it yields a value, which happens exactly when another thread is
blocked sending a call; on a closed empty channel it yields `none` and
`AssertDone` succeeds.  In particular, after a fully matched session
followed by `Close`, the trailing `AssertDone` never reports a failure
(the driver ends in `done`). -/
theorem claim5_assertDone :
    (∀ (acc : List DriverRet) (m : Msg), assertDoneK acc (some m) = .fatal extraCallMsg)
    ∧ (∀ acc : List DriverRet, assertDoneK acc none = .done acc.reverse)
    ∧ (∀ (m : Msg) (kv : Proc) (acc : List DriverRet) (rs : List String) (es : List Msg),
        Reaches ⟨.recv (assertDoneK acc), .send m kv, false, rs, es⟩
          ⟨.fatal extraCallMsg, kv, false, rs, es ++ [m]⟩)
    ∧ (∀ (ops : List DriverOp) (sts : List VerifierStep), sessionMatch ops sts = true →
        Reaches (initConfig true ops sts)
          ⟨.done (sessionRets sts), .stop, true, sessionReports ops sts, sessionEvents ops sts⟩) := by
  refine ⟨fun acc m => rfl, fun acc => rfl, fun m kv acc rs es => ?_,
    fun ops sts h => session_full true ops sts h⟩
  exact ⟨1, by simp [run, step, assertDoneK]⟩

/-- Witness for C5: the clean `TestGroceryList` session ends in `done`,
and `AssertDone` receiving a pending call is fatal. -/
theorem claim5_witness :
    sessionMatch testOps testSteps = true
    ∧ Reaches (initConfig true testOps testSteps)
        ⟨.done [.createRet none, .allRet [apples] none], .stop, true, [],
          [.createCall apples, .createResp none, .allCall, .allResp [apples] none]⟩
    ∧ assertDoneK [] (some Msg.allCall) = .fatal extraCallMsg :=
  ⟨rfl, claim5_assertDone.2.2.2 testOps testSteps rfl, claim5_assertDone.1 [] Msg.allCall⟩

/-- C6: `AssertAll(notes, err)` blocks receiving one value from the
channel; if that value is the All-call variant it sends back a response
carrying exactly the supplied notes and error; if the channel yields any
other variant, or the closed-channel signal, the step fails (fatal type
assertion) instead of silently succeeding. -/
theorem claim6_assertAll (notes : List Note) (err : Option Err)
    (rest : List VerifierStep) (k : Proc) :
    verifierProc (.assertAll notes err :: rest) = .recv (assertAllK notes err (verifierProc rest))
    ∧ assertAllK notes err k (some .allCall) = .send (.allResp notes err) k
    ∧ (∀ r : Option Msg, r ≠ some Msg.allCall → assertAllK notes err k r = .fatal wrongCallAllMsg) := by
  refine ⟨rfl, rfl, ?_⟩
  intro r hr
  cases r with
  | none => rfl
  | some m =>
    cases m with
    | allCall => exact absurd rfl hr
    | createCall n => rfl
    | createResp e => rfl
    | allResp ns e => rfl

/-- Witness for C6: `AssertAll` receiving a Create call fails. -/
theorem claim6_witness :
    (some (Msg.createCall apples) ≠ some Msg.allCall)
    ∧ assertAllK [apples] none Proc.stop (some (Msg.createCall apples)) = .fatal wrongCallAllMsg :=
  ⟨by decide, (claim6_assertAll [apples] none [] Proc.stop).2.2 _ (by decide)⟩

/-- C7: receiving a message of the wrong variant is fatal to the receiving
thread, never a silent success or a recoverable assertion failure: the
response handlers of `Create` and `All`, and the call handlers of
`AssertCreate` and `AssertAll`, all end in `fatal` on any value that is
not their matching variant (including the nil from a closed channel); in
particular `AssertAll` receiving a Create call — assertions issued in the
wrong order — fails fast with the type-mismatch report. -/
theorem claim7_wrong_variant_fatal :
    (∀ (k : Option Err → Proc) (r : Option Msg),
        (∀ e, r ≠ some (Msg.createResp e)) → createK k r = .fatal wrongRespCreateMsg)
    ∧ (∀ (k : List Note → Option Err → Proc) (r : Option Msg),
        (∀ ns e, r ≠ some (Msg.allResp ns e)) → allK k r = .fatal wrongRespAllMsg)
    ∧ (∀ (n : Note) (err : Option Err) (k : Proc) (r : Option Msg),
        (∀ n₀, r ≠ some (Msg.createCall n₀)) → assertCreateK n err k r = .fatal wrongCallCreateMsg)
    ∧ (∀ (notes : List Note) (err : Option Err) (k : Proc) (n : Note),
        assertAllK notes err k (some (Msg.createCall n)) = .fatal wrongCallAllMsg) := by
  refine ⟨?_, ?_, ?_, fun notes err k n => rfl⟩
  · intro k r hr
    cases r with
    | none => rfl
    | some m =>
      cases m with
      | createResp e => exact absurd rfl (hr e)
      | createCall n => rfl
      | allCall => rfl
      | allResp ns e => rfl
  · intro k r hr
    cases r with
    | none => rfl
    | some m =>
      cases m with
      | allResp ns e => exact absurd rfl (hr ns e)
      | createCall n => rfl
      | createResp e => rfl
      | allCall => rfl
  · intro n err k r hr
    cases r with
    | none => rfl
    | some m =>
      cases m with
      | createCall n₀ => exact absurd rfl (hr n₀)
      | createResp e => rfl
      | allCall => rfl
      | allResp ns e => rfl

/-- Witness for C7 at concrete wrong-variant receives. -/
theorem claim7_witness :
    createK (fun _ => Proc.stop) (some Msg.allCall) = .fatal wrongRespCreateMsg
    ∧ allK (fun _ _ => Proc.stop) (some (Msg.createResp none)) = .fatal wrongRespAllMsg
    ∧ assertCreateK apples none Proc.stop (some Msg.allCall) = .fatal wrongCallCreateMsg
    ∧ assertAllK [apples] none Proc.stop (some (Msg.createCall apples)) = .fatal wrongCallAllMsg :=
  ⟨claim7_wrong_variant_fatal.1 _ _ (fun e h => by simp at h),
   claim7_wrong_variant_fatal.2.1 _ _ (fun ns e h => by simp at h),
   claim7_wrong_variant_fatal.2.2.1 apples none Proc.stop _ (fun n₀ h => by simp at h),
   claim7_wrong_variant_fatal.2.2.2 [apples] none Proc.stop apples⟩

/-- C8: round-trip through the text mapping.  With the paired assertion
supplying `([]*Note{{"apples"}}, nil)`, a driver `All()` completes with
those values, and `GroceryList.Items`'s per-note mapping of the result
yields exactly `(["apples"], nil)`. -/
theorem claim8_round_trip_text :
    run 10 (initConfig false [DriverOp.all] [VerifierStep.assertAll [apples] none]) =
      ⟨.done [.allRet [apples] none], .stop, true, [], [.allCall, .allResp [apples] none]⟩
    ∧ GroceryList.Items [apples] none = (["apples"], none) :=
  ⟨rfl, rfl⟩

/-- C9: the unbuffered channel gives strict FIFO rendezvous pairing.  In
a variant-matched session the trace is exactly
`call₁, resp₁, call₂, resp₂, …` (`sessionEvents`): the i-th call sent by
the double is consumed by the i-th verifier receive and answered before
the next call.  And an ordering mismatch between driver calls and
verifier assertions can never silently diverge: if the session does not
match, no amount of scheduling ever reaches a cleanly finished
configuration — the run ends blocked (deadlocked) or with a fatal
failure. -/
theorem claim9_fifo_no_silent_divergence (ops : List DriverOp) (sts : List VerifierStep) :
    (sessionMatch ops sts = true →
      Reaches (initConfig true ops sts)
        ⟨.done (sessionRets sts), .stop, true, sessionReports ops sts, sessionEvents ops sts⟩)
    ∧ (sessionMatch ops sts = false →
      ∀ n, ¬ (run n (initConfig true ops sts)).finishedOK) := by
  refine ⟨session_full true ops sts, ?_⟩
  intro h n
  obtain ⟨c, hc, h1, h2⟩ := session_mismatch ops sts [] [] [] h
  exact not_finishedOK_of_stuck hc h1 h2 n

/-- Witness for C9: the matched `TestGroceryList` session reaches its
final configuration, and a wrongly ordered session never finishes OK. -/
theorem claim9_witness :
    sessionMatch testOps testSteps = true
    ∧ Reaches (initConfig true testOps testSteps)
        ⟨.done [.createRet none, .allRet [apples] none], .stop, true, [],
          [.createCall apples, .createResp none, .allCall, .allResp [apples] none]⟩
    ∧ sessionMatch [DriverOp.all] [VerifierStep.assertCreate apples none] = false
    ∧ ¬ (run 5 (initConfig true [DriverOp.all] [VerifierStep.assertCreate apples none])).finishedOK :=
  ⟨rfl, (claim9_fifo_no_silent_divergence testOps testSteps).1 rfl, rfl,
   (claim9_fifo_no_silent_divergence [DriverOp.all] [VerifierStep.assertCreate apples none]).2 rfl 5⟩

/-- C10: whenever the injected backend's `All()` returns a non-nil error,
`GroceryList.Items()` returns that same error with an empty string slice
(the Go code returns the non-nil empty literal, rendered here as `[]`),
performing no mapping of the returned notes. -/
theorem claim10_items_error_path (notes : List Note) (e : Err) :
    GroceryList.Items notes (some e) = ([], some e) := rfl

end Grocery
